import Mathlib

/-!
Verification development for the xnat-autorun repository.

The repository has two scripts:
* src/xnat_batchrun/main.py - batch dispatcher with bounded retry
  (run_command, get_command, get_sessions, login, get_project, main);
* src/xnat-autorun.py - an older variant whose run_command raises on any
  non-200 launch response.

HTTP traffic is modelled by an oracle: a function from the index of the
request to the response the platform returns.  Side effects (HTTP requests,
sleeps, log lines) are recorded as an event trace; each Event constructor
corresponds to one call site in the source, noted in its comment.
-/

/-- An HTTP response: status_code and body text. -/
structure Response where
  status : Nat
  text : String
  deriving DecidableEq, Repr

/-- One row of the session listing (ID and label fields used by the code). -/
structure Session where
  ID : String
  label : String
  deriving DecidableEq, Repr

/-- One row of the project listing (ID and name fields used by get_project). -/
structure ProjectRow where
  ID : String
  name : String
  deriving DecidableEq, Repr

/-- Observable effects of xnat_batchrun/main.py, one constructor per call
site:
* post - requests.post to the launch endpoint, tagged with the session ID
  query parameter (main.py line 29);
* retrySleep - time.sleep(10) between launch retries (main.py line 37);
* interSleep - time.sleep(options.sleep) after a dispatched launch
  (main.py line 147);
* runningInfo - LOG.info running-command message (main.py line 22);
* launchingDebug - LOG.debug launching message (main.py line 25);
* proxyWarning - LOG.warning proxy-error message with the response body
  (main.py line 34);
* failWarning - LOG.warning failed-after-10-attempts message with the last
  response body (main.py line 40);
* startedInfo - LOG.info started-successfully message (main.py line 41);
* launchCall - the dispatcher invokes run_command for the session at this
  index (main.py line 146);
* skipInfo - LOG.info skipping-session message (main.py line 149). -/
inductive Event where
  | post (sid : String)
  | retrySleep (secs : Nat)
  | interSleep (secs : Nat)
  | runningInfo (command : String) (idx : Nat) (sid label : String)
  | launchingDebug (sid : String)
  | proxyWarning (sid text : String)
  | failWarning (sid text : String)
  | startedInfo
  | launchCall (idx : Nat)
  | skipInfo (idx : Nat) (label : String)
  deriving DecidableEq, Repr

/-- The retry loop of run_command (main.py lines 26-37).  The oracle resp
gives the response to the i-th POST of this call.  fuel is the number of
further loop iterations the bound tries < 10 still allows after the current
one; run_command enters with fuel = 9, giving 10 iterations in total.
Returns the final value of r together with the events of the loop. -/
def launchLoop (resp : Nat → Response) (sid : String) : Nat → Nat → Response × List Event
  | i, 0 =>
    if (resp i).status = 200 then (resp i, [Event.post sid])
    else if (resp i).status = 501 ∨ (resp i).status = 502 then
      (resp i, [Event.post sid, Event.proxyWarning sid (resp i).text])
    else
      (resp i, [Event.post sid, Event.retrySleep 10])
  | i, fuel+1 =>
    if (resp i).status = 200 then (resp i, [Event.post sid])
    else if (resp i).status = 501 ∨ (resp i).status = 502 then
      (resp i, [Event.post sid, Event.proxyWarning sid (resp i).text])
    else
      ((launchLoop resp sid (i+1) fuel).1,
        Event.post sid :: Event.retrySleep 10 :: (launchLoop resp sid (i+1) fuel).2)

/-- Embedding of run_command (main.py lines 21-41): the info and debug log
lines, the retry loop, the failure warning when the final response is none
of 200/501/502, and the unconditional final started-successfully info. -/
def run_command (resp : Nat → Response) (command : String) (sess : Session) (idx : Nat) : List Event :=
  let lr := launchLoop resp sess.ID 0 9
  Event.runningInfo command idx sess.ID sess.label ::
  Event.launchingDebug sess.ID ::
  (lr.2 ++
    (if lr.1.status = 200 ∨ lr.1.status = 501 ∨ lr.1.status = 502 then []
     else [Event.failWarning sess.ID lr.1.text]) ++
    [Event.startedInfo])

/-- The dispatch loop of main (main.py lines 144-149).  The oracle resp
gives, for each session index, the response stream seen by that session's
run_command call.  idx is the enumerate counter. -/
def dispatchLoop (resp : Nat → Nat → Response) (command : String) (skip sleepSecs : Nat) : Nat → List Session → List Event
  | _, [] => []
  | idx, sess :: rest =>
    if skip ≤ idx then
      Event.launchCall idx ::
        (run_command (resp idx) command sess idx ++
          Event.interSleep sleepSecs :: dispatchLoop resp command skip sleepSecs (idx+1) rest)
    else
      Event.skipInfo idx sess.label :: dispatchLoop resp command skip sleepSecs (idx+1) rest

/-- The whole dispatch phase of main: the loop started at index 0. -/
def dispatch (resp : Nat → Nat → Response) (command : String) (sessions : List Session) (skip sleepSecs : Nat) : List Event :=
  dispatchLoop resp command skip sleepSecs 0 sessions

/-- Indices of the sessions for which the dispatcher invoked run_command. -/
def launchIdxs (evs : List Event) : List Nat :=
  evs.filterMap fun e =>
    match e with
    | Event.launchCall i => some i
    | _ => none

/-- Indices of the sessions the dispatcher only logged as skipped. -/
def skipIdxs (evs : List Event) : List Nat :=
  evs.filterMap fun e =>
    match e with
    | Event.skipInfo i _ => some i
    | _ => none

/-- Number of launch-endpoint POST requests in a trace. -/
def countPosts (evs : List Event) : Nat :=
  (evs.filter fun e =>
    match e with
    | Event.post _ => true
    | _ => false).length

/-- Dispatcher-level schedule: the trace restricted to run_command
invocations and the inter-launch sleeps. -/
def dispatchSchedule (evs : List Event) : List Event :=
  evs.filter fun e =>
    match e with
    | Event.launchCall _ => true
    | Event.interSleep _ => true
    | _ => false

/-- Events that can only be produced inside run_command, never by the
dispatcher itself. -/
def innerEvent : Event → Bool
  | Event.launchCall _ => false
  | Event.skipInfo _ _ => false
  | Event.interSleep _ => false
  | _ => true

/-- The alternating block of fuel POSTs each followed by the fixed
10-second retry sleep, as produced when every attempt is retried. -/
def postSleeps (sid : String) : Nat → List Event
  | 0 => []
  | n+1 => Event.post sid :: Event.retrySleep 10 :: postSleeps sid n

/-- The dispatcher-level schedule expected for a list of launched indices:
each run_command invocation immediately followed by the inter-launch
sleep. -/
def launchSleepPairs (sleepSecs : Nat) : List Nat → List Event
  | [] => []
  | i :: rest => Event.launchCall i :: Event.interSleep sleepSecs :: launchSleepPairs sleepSecs rest

/-- A response status the retry loop treats as a transient failure (neither
success 200 nor the ambiguous-success proxy statuses 501/502). -/
def retryable (r : Response) : Prop :=
  r.status ≠ 200 ∧ r.status ≠ 501 ∧ r.status ≠ 502

instance (r : Response) : Decidable (retryable r) := by
  unfold retryable
  infer_instance

/-- The project-listing retry loop of get_project (main.py lines 87-93):
up to 10 GET requests, breaking on the first 200.  The oracle resp gives
the response to the i-th GET of this call; fuel is the number of further
iterations the bound tries < 10 still allows (the entry point uses 9).
Returns the number of GET requests issued and the final value of r. -/
def projectFetchLoop (resp : Nat → Response) : Nat → Nat → Nat × Response
  | i, 0 => (i + 1, resp i)
  | i, fuel+1 =>
    let r := resp i
    if r.status = 200 then (i + 1, r)
    else projectFetchLoop resp (i+1) fuel

/-- The matching loop of get_project (main.py lines 98-100): the first row
whose ID or name equals the requested project gives the result, which is
that row's ID field. -/
def findProject : List ProjectRow → String → Option String
  | [], _ => none
  | p :: rest, ident =>
    if p.ID = ident ∨ p.name = ident then some p.ID else findProject rest ident

/-- Embedding of get_project after a successful login (main.py lines
83-103): fetch the listing with projectFetchLoop, fail if the final status
is not 200 with a message carrying the last status code and body, parse the
body into rows, and look the identifier up.  The raise on line 103 is not
an f-string, so the no-match message is the literal brace text. -/
def get_project (resp : Nat → Response) (parse : String → List ProjectRow) (ident : String) : Except String String :=
  let fr := projectFetchLoop resp 0 9
  if fr.2.status ≠ 200 then
    Except.error ("Failed to download projects after 10 tries: " ++ toString fr.2.status ++ " " ++ fr.2.text)
  else
    match findProject (parse fr.2.text) ident with
    | some pid => Except.ok pid
    | none => Except.error "Project not found: \x7boptions.project\x7d - known project: \x7bprojects\x7d"

/-- Python str.strip with no argument: remove leading and trailing
whitespace characters. -/
def pyStrip (s : String) : String :=
  ⟨(((s.data.dropWhile Char.isWhitespace).reverse).dropWhile Char.isWhitespace).reverse⟩

/-- Python str.lower over the characters of the string. -/
def pyLower (s : String) : String :=
  ⟨s.data.map Char.toLower⟩

/-- The confirmation test of main (main.py line 140): the stripped,
lowercased input must be y or yes. -/
def confirmAccepted (input : String) : Bool :=
  pyLower (pyStrip input) == "y" || pyLower (pyStrip input) == "yes"

/-- The confirmation gate plus dispatch phase of main (main.py lines
138-149): with auto-confirm off, any input other than y/yes (trimmed,
lowercased) reaches sys.exit(1) before the loop, carried here as the exit
code in the error case; otherwise the dispatch loop runs. -/
def mainRun (yes : Bool) (input : String) (resp : Nat → Nat → Response) (command : String) (sessions : List Session) (skip sleepSecs : Nat) : Except Nat (List Event) :=
  if yes = false ∧ confirmAccepted input = false then Except.error 1
  else Except.ok (dispatch resp command sessions skip sleepSecs)

/-- Launch calls reaching the platform under a mainRun outcome: none when
the run exited at the gate. -/
def mainRunLaunches (out : Except Nat (List Event)) : List Nat :=
  match out with
  | Except.error _ => []
  | Except.ok evs => launchIdxs evs

/-- Embedding of run_command of the older script (xnat-autorun.py lines
19-27): a single POST; any status other than 200 raises RuntimeError with
the response body. -/
def autorunRunCommand (r : Response) : Except String Unit :=
  if r.status ≠ 200 then Except.error ("Failed to run command: " ++ r.text)
  else Except.ok ()

/-- The dispatch loop of the older script (xnat-autorun.py lines 113-115):
no skip offset; run_command on each session in turn, and an exception from
it propagates to the top-level handler of main, which exits.  Returns the
indices whose POST was issued, and the escaped error message if any. -/
def autorunLoop (resp : Nat → Response) : Nat → List Session → List Nat × Option String
  | _, [] => ([], none)
  | i, _sess :: rest =>
    match autorunRunCommand (resp i) with
    | Except.error e => ([i], some e)
    | Except.ok _ =>
      let further := autorunLoop resp (i+1) rest
      (i :: further.1, further.2)

/-- A successful first attempt ends the retry loop after one POST. -/
theorem launchLoop_status200 (resp : Nat → Response) (sid : String) (i fuel : Nat)
    (h : (resp i).status = 200) :
    launchLoop resp sid i fuel = (resp i, [Event.post sid]) := by
  cases fuel <;> simp [launchLoop, h]

/-- A proxy status on the current attempt ends the retry loop after one
POST with the proxy warning. -/
theorem launchLoop_proxy (resp : Nat → Response) (sid : String) (i fuel : Nat)
    (h200 : (resp i).status ≠ 200) (hp : (resp i).status = 501 ∨ (resp i).status = 502) :
    launchLoop resp sid i fuel = (resp i, [Event.post sid, Event.proxyWarning sid (resp i).text]) := by
  cases fuel <;> simp [launchLoop, h200, hp]

/-- A retryable status on the last allowed attempt leaves the loop after
the trailing sleep. -/
theorem launchLoop_retry_zero (resp : Nat → Response) (sid : String) (i : Nat)
    (h : retryable (resp i)) :
    launchLoop resp sid i 0 = (resp i, [Event.post sid, Event.retrySleep 10]) := by
  obtain ⟨h1, h2, h3⟩ := h
  simp [launchLoop, h1, h2, h3]

/-- A retryable status with attempts remaining sleeps 10 seconds and
retries. -/
theorem launchLoop_retry_succ (resp : Nat → Response) (sid : String) (i fuel : Nat)
    (h : retryable (resp i)) :
    launchLoop resp sid i (fuel+1) =
      ((launchLoop resp sid (i+1) fuel).1,
        Event.post sid :: Event.retrySleep 10 :: (launchLoop resp sid (i+1) fuel).2) := by
  obtain ⟨h1, h2, h3⟩ := h
  simp [launchLoop, h1, h2, h3]

/-- When every response the loop can see is retryable, the loop issues one
POST and one 10-second sleep per allowed iteration and ends on the last
response. -/
theorem launchLoop_allRetry (resp : Nat → Response) (sid : String) :
    ∀ fuel i, (∀ j, j ≤ fuel → retryable (resp (i+j))) →
    launchLoop resp sid i fuel = (resp (i + fuel), postSleeps sid (fuel+1)) := by
  intro fuel
  induction fuel with
  | zero =>
    intro i h
    have h0 : retryable (resp i) := by simpa using h 0 (Nat.le_refl 0)
    rw [launchLoop_retry_zero resp sid i h0]
    simp [postSleeps]
  | succ n ih =>
    intro i h
    have h0 : retryable (resp i) := by simpa using h 0 (Nat.zero_le _)
    rw [launchLoop_retry_succ resp sid i n h0]
    have hrec := ih (i+1) (by
      intro j hj
      have := h (j+1) (Nat.succ_le_succ hj)
      simpa [Nat.add_assoc, Nat.add_comm, Nat.add_left_comm] using this)
    rw [hrec]
    simp [postSleeps, Nat.add_assoc, Nat.add_comm, Nat.add_left_comm]

/-- Every event the retry loop emits is an inner event. -/
theorem launchLoop_mem_inner (resp : Nat → Response) (sid : String) :
    ∀ fuel i e, e ∈ (launchLoop resp sid i fuel).2 → innerEvent e = true := by
  intro fuel
  induction fuel with
  | zero =>
    intro i e he
    unfold launchLoop at he
    split at he
    · simp at he
      subst he
      rfl
    · split at he
      · rcases (by simpa using he : e = Event.post sid ∨ e = Event.proxyWarning sid (resp i).text) with h | h <;> (subst h; rfl)
      · rcases (by simpa using he : e = Event.post sid ∨ e = Event.retrySleep 10) with h | h <;> (subst h; rfl)
  | succ n ih =>
    intro i e he
    unfold launchLoop at he
    split at he
    · simp at he
      subst he
      rfl
    · split at he
      · rcases (by simpa using he : e = Event.post sid ∨ e = Event.proxyWarning sid (resp i).text) with h | h <;> (subst h; rfl)
      · rcases (by simpa using he :
            e = Event.post sid ∨ e = Event.retrySleep 10 ∨ e ∈ (launchLoop resp sid (i+1) n).2) with h | h | h
        · subst h; rfl
        · subst h; rfl
        · exact ih (i+1) e h

/-- Every event run_command emits is an inner event. -/
theorem run_command_mem_inner (resp : Nat → Response) (command : String) (sess : Session) (idx : Nat) :
    ∀ e ∈ run_command resp command sess idx, innerEvent e = true := by
  intro e he
  simp only [run_command, List.mem_cons, List.mem_append, List.mem_singleton] at he
  rcases he with h | h | (h | h) | h | h
  · subst h; rfl
  · subst h; rfl
  · exact launchLoop_mem_inner resp sess.ID 9 0 e h
  · split at h
    · simp at h
    · rcases (by simpa using h :
          e = Event.failWarning sess.ID (launchLoop resp sess.ID 0 9).1.text) with h
      subst h; rfl
  · subst h; rfl
  · simp at h

/-- Traces made only of inner events contain no launchCall marker. -/
theorem launchIdxs_of_inner {l : List Event} (h : ∀ e ∈ l, innerEvent e = true) :
    launchIdxs l = [] := by
  unfold launchIdxs
  rw [List.filterMap_eq_nil_iff]
  intro e he
  have hi := h e he
  cases e <;> simp_all [innerEvent]

/-- Traces made only of inner events contain no skipInfo line. -/
theorem skipIdxs_of_inner {l : List Event} (h : ∀ e ∈ l, innerEvent e = true) :
    skipIdxs l = [] := by
  unfold skipIdxs
  rw [List.filterMap_eq_nil_iff]
  intro e he
  have hi := h e he
  cases e <;> simp_all [innerEvent]

/-- Traces made only of inner events contribute nothing to the
dispatcher-level schedule. -/
theorem dispatchSchedule_of_inner {l : List Event} (h : ∀ e ∈ l, innerEvent e = true) :
    dispatchSchedule l = [] := by
  unfold dispatchSchedule
  rw [List.filter_eq_nil_iff]
  intro e he
  have hi := h e he
  cases e <;> simp_all [innerEvent]

/-- run_command emits no launchCall marker of its own. -/
theorem launchIdxs_run_command (resp : Nat → Response) (command : String) (sess : Session) (idx : Nat) :
    launchIdxs (run_command resp command sess idx) = [] :=
  launchIdxs_of_inner (run_command_mem_inner resp command sess idx)

/-- run_command emits no skipInfo line of its own. -/
theorem skipIdxs_run_command (resp : Nat → Response) (command : String) (sess : Session) (idx : Nat) :
    skipIdxs (run_command resp command sess idx) = [] :=
  skipIdxs_of_inner (run_command_mem_inner resp command sess idx)

/-- run_command contributes nothing to the dispatcher-level schedule. -/
theorem dispatchSchedule_run_command (resp : Nat → Response) (command : String) (sess : Session) (idx : Nat) :
    dispatchSchedule (run_command resp command sess idx) = [] :=
  dispatchSchedule_of_inner (run_command_mem_inner resp command sess idx)

/-- countPosts distributes over append. -/
theorem countPosts_append (l1 l2 : List Event) :
    countPosts (l1 ++ l2) = countPosts l1 + countPosts l2 := by
  simp [countPosts, List.filter_append]

/-- The POSTs of run_command are exactly the POSTs of its retry loop. -/
theorem countPosts_run_command (resp : Nat → Response) (command : String) (sess : Session) (idx : Nat) :
    countPosts (run_command resp command sess idx) = countPosts (launchLoop resp sess.ID 0 9).2 := by
  by_cases hc : (launchLoop resp sess.ID 0 9).1.status = 200 ∨
      (launchLoop resp sess.ID 0 9).1.status = 501 ∨ (launchLoop resp sess.ID 0 9).1.status = 502
  · simp [run_command, countPosts, List.filter_append, hc]
  · simp [run_command, countPosts, List.filter_append, hc]

/-- Each post-and-sleep block holds exactly one POST per iteration. -/
theorem countPosts_postSleeps (sid : String) : ∀ n, countPosts (postSleeps sid n) = n := by
  intro n
  induction n with
  | zero => rfl
  | succ m ih => simp [postSleeps, countPosts] at ih ⊢; omega

/-- launchIdxs on a cons of the launchCall marker. -/
@[simp] theorem launchIdxs_cons_launchCall (i : Nat) (l : List Event) :
    launchIdxs (Event.launchCall i :: l) = i :: launchIdxs l := rfl

/-- launchIdxs ignores a leading inter-launch sleep. -/
@[simp] theorem launchIdxs_cons_interSleep (s : Nat) (l : List Event) :
    launchIdxs (Event.interSleep s :: l) = launchIdxs l := rfl

/-- launchIdxs ignores a leading skip log. -/
@[simp] theorem launchIdxs_cons_skipInfo (i : Nat) (lab : String) (l : List Event) :
    launchIdxs (Event.skipInfo i lab :: l) = launchIdxs l := rfl

/-- launchIdxs distributes over append. -/
theorem launchIdxs_append (l1 l2 : List Event) :
    launchIdxs (l1 ++ l2) = launchIdxs l1 ++ launchIdxs l2 := by
  simp [launchIdxs, List.filterMap_append]

/-- skipIdxs on a cons of a skip log. -/
@[simp] theorem skipIdxs_cons_skipInfo (i : Nat) (lab : String) (l : List Event) :
    skipIdxs (Event.skipInfo i lab :: l) = i :: skipIdxs l := rfl

/-- skipIdxs ignores a leading launchCall marker. -/
@[simp] theorem skipIdxs_cons_launchCall (i : Nat) (l : List Event) :
    skipIdxs (Event.launchCall i :: l) = skipIdxs l := rfl

/-- skipIdxs ignores a leading inter-launch sleep. -/
@[simp] theorem skipIdxs_cons_interSleep (s : Nat) (l : List Event) :
    skipIdxs (Event.interSleep s :: l) = skipIdxs l := rfl

/-- skipIdxs distributes over append. -/
theorem skipIdxs_append (l1 l2 : List Event) :
    skipIdxs (l1 ++ l2) = skipIdxs l1 ++ skipIdxs l2 := by
  simp [skipIdxs, List.filterMap_append]

/-- dispatchSchedule keeps a leading launchCall marker. -/
@[simp] theorem dispatchSchedule_cons_launchCall (i : Nat) (l : List Event) :
    dispatchSchedule (Event.launchCall i :: l) = Event.launchCall i :: dispatchSchedule l := rfl

/-- dispatchSchedule keeps a leading inter-launch sleep. -/
@[simp] theorem dispatchSchedule_cons_interSleep (s : Nat) (l : List Event) :
    dispatchSchedule (Event.interSleep s :: l) = Event.interSleep s :: dispatchSchedule l := rfl

/-- dispatchSchedule drops a leading skip log. -/
@[simp] theorem dispatchSchedule_cons_skipInfo (i : Nat) (lab : String) (l : List Event) :
    dispatchSchedule (Event.skipInfo i lab :: l) = dispatchSchedule l := rfl

/-- dispatchSchedule distributes over append. -/
theorem dispatchSchedule_append (l1 l2 : List Event) :
    dispatchSchedule (l1 ++ l2) = dispatchSchedule l1 ++ dispatchSchedule l2 := by
  simp [dispatchSchedule, List.filter_append]

/-- The run_command invocations of the dispatch loop started at any index:
exactly the indices from max skip idx up to the end of the enumeration, in
increasing order, for every response oracle. -/
theorem dispatchLoop_launchIdxs (resp : Nat → Nat → Response) (command : String) (skip s : Nat) :
    ∀ sessions idx, launchIdxs (dispatchLoop resp command skip s idx sessions) =
      List.range' (max skip idx) (idx + sessions.length - max skip idx) := by
  intro sessions
  induction sessions with
  | nil =>
    intro idx
    have h0 : idx + ([] : List Session).length - max skip idx = 0 := by
      simp only [List.length_nil]
      omega
    rw [h0]
    rfl
  | cons sess rest ih =>
    intro idx
    by_cases h : skip ≤ idx
    · have hmax : max skip idx = idx := Nat.max_eq_right h
      have hmax2 : max skip (idx+1) = idx + 1 := Nat.max_eq_right (Nat.le_succ_of_le h)
      rw [dispatchLoop, if_pos h, launchIdxs_cons_launchCall, launchIdxs_append,
        launchIdxs_run_command, launchIdxs_cons_interSleep, ih (idx+1), hmax, hmax2]
      have hlen : idx + (sess :: rest).length - idx = rest.length + 1 := by
        simp only [List.length_cons]
        omega
      have hlen2 : idx + 1 + rest.length - (idx + 1) = rest.length := by omega
      rw [hlen, hlen2, List.range'_succ idx rest.length 1]
      rfl
    · have hmax : max skip idx = skip := Nat.max_eq_left (Nat.le_of_lt (Nat.lt_of_not_le h))
      have hmax2 : max skip (idx+1) = skip := Nat.max_eq_left (Nat.lt_of_not_le h)
      rw [dispatchLoop, if_neg h, launchIdxs_cons_skipInfo, ih (idx+1), hmax, hmax2]
      have hlen : idx + (sess :: rest).length = idx + 1 + rest.length := by
        simp only [List.length_cons]
        omega
      rw [hlen]

/-- The skip logs of the dispatch loop started at any index: exactly the
indices from idx up to the skip bound, for every response oracle. -/
theorem dispatchLoop_skipIdxs (resp : Nat → Nat → Response) (command : String) (skip s : Nat) :
    ∀ sessions idx, skipIdxs (dispatchLoop resp command skip s idx sessions) =
      List.range' idx (min skip (idx + sessions.length) - idx) := by
  intro sessions
  induction sessions with
  | nil =>
    intro idx
    have h0 : min skip (idx + ([] : List Session).length) - idx = 0 := by
      simp only [List.length_nil]
      omega
    rw [h0]
    rfl
  | cons sess rest ih =>
    intro idx
    by_cases h : skip ≤ idx
    · rw [dispatchLoop, if_pos h, skipIdxs_cons_launchCall, skipIdxs_append,
        skipIdxs_run_command, skipIdxs_cons_interSleep, ih (idx+1)]
      have h1 : min skip (idx + 1 + rest.length) - (idx + 1) = 0 := by omega
      have h2 : min skip (idx + (sess :: rest).length) - idx = 0 := by
        simp only [List.length_cons]
        omega
      rw [h1, h2]
      simp
    · rw [dispatchLoop, if_neg h, skipIdxs_cons_skipInfo, ih (idx+1)]
      have h1 : min skip (idx + (sess :: rest).length) - idx =
          (min skip (idx + 1 + rest.length) - (idx + 1)) + 1 := by
        simp only [List.length_cons]
        omega
      rw [h1, List.range'_succ idx (min skip (idx + 1 + rest.length) - (idx + 1)) 1]

/-- The dispatcher-level schedule of the dispatch loop started at any
index: one launchCall immediately followed by one inter-launch sleep per
launched index, for every response oracle. -/
theorem dispatchLoop_schedule (resp : Nat → Nat → Response) (command : String) (skip s : Nat) :
    ∀ sessions idx, dispatchSchedule (dispatchLoop resp command skip s idx sessions) =
      launchSleepPairs s (List.range' (max skip idx) (idx + sessions.length - max skip idx)) := by
  intro sessions
  induction sessions with
  | nil =>
    intro idx
    have h0 : idx + ([] : List Session).length - max skip idx = 0 := by
      simp only [List.length_nil]
      omega
    rw [h0]
    rfl
  | cons sess rest ih =>
    intro idx
    by_cases h : skip ≤ idx
    · have hmax : max skip idx = idx := Nat.max_eq_right h
      have hmax2 : max skip (idx+1) = idx + 1 := Nat.max_eq_right (Nat.le_succ_of_le h)
      rw [dispatchLoop, if_pos h, dispatchSchedule_cons_launchCall, dispatchSchedule_append,
        dispatchSchedule_run_command, dispatchSchedule_cons_interSleep, ih (idx+1), hmax, hmax2]
      have hlen : idx + (sess :: rest).length - idx = rest.length + 1 := by
        simp only [List.length_cons]
        omega
      have hlen2 : idx + 1 + rest.length - (idx + 1) = rest.length := by omega
      rw [hlen, hlen2, List.range'_succ idx rest.length 1]
      rfl
    · have hmax : max skip idx = skip := Nat.max_eq_left (Nat.le_of_lt (Nat.lt_of_not_le h))
      have hmax2 : max skip (idx+1) = skip := Nat.max_eq_left (Nat.lt_of_not_le h)
      rw [dispatchLoop, if_neg h, dispatchSchedule_cons_skipInfo, ih (idx+1), hmax, hmax2]
      have hlen : idx + (sess :: rest).length = idx + 1 + rest.length := by
        simp only [List.length_cons]
        omega
      rw [hlen]

/-- Stepping the project fetch loop over an initial run of non-200
responses. -/
theorem projectFetchLoop_skip (resp : Nat → Response) :
    ∀ k fuel i, k ≤ fuel → (∀ j, j < k → (resp (i+j)).status ≠ 200) →
    projectFetchLoop resp i fuel = projectFetchLoop resp (i+k) (fuel - k) := by
  intro k
  induction k with
  | zero =>
    intro fuel i _ _
    simp
  | succ m ih =>
    intro fuel i hk hne
    cases fuel with
    | zero => omega
    | succ f =>
      have h0 : (resp i).status ≠ 200 := by simpa using hne 0 (Nat.succ_pos m)
      have hstep : projectFetchLoop resp i (f+1) = projectFetchLoop resp (i+1) f := by
        simp only [projectFetchLoop, if_neg h0]
      rw [hstep]
      have hrec := ih f (i+1) (Nat.le_of_succ_le_succ hk) (fun j hj => by
        have := hne (j+1) (Nat.succ_lt_succ hj)
        simpa [Nat.add_assoc, Nat.add_comm, Nat.add_left_comm] using this)
      rw [hrec, (by omega : i + 1 + m = i + (m+1)), (by omega : f - m = f + 1 - (m+1))]

/-- The fetch loop stops at the first 200 response: with the first success
at attempt index k within bounds, it issues exactly k+1 GET requests and
ends on that response. -/
theorem projectFetchLoop_first200 (resp : Nat → Response) (fuel k : Nat)
    (hk : k ≤ fuel) (h200 : (resp k).status = 200)
    (hfirst : ∀ j, j < k → (resp j).status ≠ 200) :
    projectFetchLoop resp 0 fuel = (k + 1, resp k) := by
  rw [projectFetchLoop_skip resp k fuel 0 hk (fun j hj => by simpa using hfirst j hj)]
  have hz : (0:Nat) + k = k := Nat.zero_add k
  rw [hz]
  cases hrem : fuel - k with
  | zero => rfl
  | succ f => simp only [projectFetchLoop, if_pos h200]

/-- When all ten responses are non-200, the fetch loop issues exactly ten
GET requests and ends on the tenth response. -/
theorem projectFetchLoop_allFail (resp : Nat → Response)
    (h : ∀ j, j < 10 → (resp j).status ≠ 200) :
    projectFetchLoop resp 0 9 = (10, resp 9) := by
  rw [projectFetchLoop_skip resp 9 9 0 (by omega) (fun j hj => by
    simpa using h j (by omega))]
  rfl

/-- First-match-wins for the project matching loop: if the row at position
i matches the identifier by ID or name and no earlier row does, the loop
returns that row's ID. -/
theorem findProject_first_match (ident : String) :
    ∀ (rows : List ProjectRow) (i : Nat) (hi : i < rows.length),
    ((rows.get ⟨i, hi⟩).ID = ident ∨ (rows.get ⟨i, hi⟩).name = ident) →
    (∀ j (hj : j < i),
      ¬((rows.get ⟨j, Nat.lt_trans hj hi⟩).ID = ident ∨ (rows.get ⟨j, Nat.lt_trans hj hi⟩).name = ident)) →
    findProject rows ident = some (rows.get ⟨i, hi⟩).ID := by
  intro rows
  induction rows with
  | nil =>
    intro i hi
    exact absurd hi (by simp)
  | cons p rest ih =>
    intro i hi hmatch hfirst
    cases i with
    | zero =>
      have hp : p.ID = ident ∨ p.name = ident := hmatch
      simp only [findProject, if_pos hp]
      rfl
    | succ m =>
      have hp : ¬(p.ID = ident ∨ p.name = ident) := by
        have h0 := hfirst 0 (Nat.succ_pos m)
        simpa using h0
      simp only [findProject, if_neg hp]
      have hm : m < rest.length := Nat.lt_of_succ_lt_succ hi
      have hmatch2 : (rest.get ⟨m, hm⟩).ID = ident ∨ (rest.get ⟨m, hm⟩).name = ident := hmatch
      have hfirst2 : ∀ j (hj : j < m),
          ¬((rest.get ⟨j, Nat.lt_trans hj hm⟩).ID = ident ∨
            (rest.get ⟨j, Nat.lt_trans hj hm⟩).name = ident) := by
        intro j hj
        have := hfirst (j+1) (Nat.succ_lt_succ hj)
        simpa using this
      exact ih m hm hmatch2 hfirst2

/-- C1: for every session sequence of length N and every skip_count k with
k ≤ N, the dispatcher invokes run_command exactly for the sessions at
indices k, k+1, ..., N-1, in increasing index order (N - k launch calls);
the first k sessions are only logged as skipped and produce no launch
call; and, for every response oracle (so regardless of each launch
succeeding or exhausting its retries), every launch is immediately
followed at dispatcher level by a sleep of sleep_seconds. -/
theorem c1_dispatch_order (resp : Nat → Nat → Response) (command : String)
    (sessions : List Session) (skip sleepSecs : Nat) (hk : skip ≤ sessions.length) :
    launchIdxs (dispatch resp command sessions skip sleepSecs) =
      List.range' skip (sessions.length - skip) ∧
    skipIdxs (dispatch resp command sessions skip sleepSecs) = List.range skip ∧
    dispatchSchedule (dispatch resp command sessions skip sleepSecs) =
      launchSleepPairs sleepSecs (List.range' skip (sessions.length - skip)) := by
  refine ⟨?_, ?_, ?_⟩
  · rw [dispatch, dispatchLoop_launchIdxs]
    have h1 : max skip 0 = skip := by omega
    rw [h1]
    have h2 : 0 + sessions.length - skip = sessions.length - skip := by omega
    rw [h2]
  · rw [dispatch, dispatchLoop_skipIdxs, List.range_eq_range']
    have h1 : min skip (0 + sessions.length) - 0 = skip := by omega
    rw [h1]
  · rw [dispatch, dispatchLoop_schedule]
    have h1 : max skip 0 = skip := by omega
    rw [h1]
    have h2 : 0 + sessions.length - skip = sessions.length - skip := by omega
    rw [h2]

/-- Witness for C1 at a three-session list with skip_count 1 and a
permanently failing oracle. -/
theorem c1_dispatch_order_witness :
    launchIdxs (dispatch (fun _ _ => ⟨500, "boom"⟩) "qc"
        [⟨"S0", "L0"⟩, ⟨"S1", "L1"⟩, ⟨"S2", "L2"⟩] 1 60) = [1, 2] ∧
    skipIdxs (dispatch (fun _ _ => ⟨500, "boom"⟩) "qc"
        [⟨"S0", "L0"⟩, ⟨"S1", "L1"⟩, ⟨"S2", "L2"⟩] 1 60) = [0] ∧
    dispatchSchedule (dispatch (fun _ _ => ⟨500, "boom"⟩) "qc"
        [⟨"S0", "L0"⟩, ⟨"S1", "L1"⟩, ⟨"S2", "L2"⟩] 1 60) =
      [Event.launchCall 1, Event.interSleep 60, Event.launchCall 2, Event.interSleep 60] := by
  have h := c1_dispatch_order (fun _ _ => ⟨500, "boom"⟩) "qc"
    [⟨"S0", "L0"⟩, ⟨"S1", "L1"⟩, ⟨"S2", "L2"⟩] 1 60 (by decide)
  obtain ⟨h1, h2, h3⟩ := h
  refine ⟨?_, ?_, ?_⟩
  · rw [h1]; rfl
  · rw [h2]; rfl
  · rw [h3]; rfl

/-- C10: for every session sequence of length N and every skip_count k,
including k greater than N, the dispatcher invokes run_command exactly
max(0, N - k) times (truncated subtraction on Nat) and completes with a
well-defined trace; with k at least N no launch call at all is issued. -/
theorem c10_skip_beyond_length (resp : Nat → Nat → Response) (command : String)
    (sessions : List Session) (skip sleepSecs : Nat) :
    (launchIdxs (dispatch resp command sessions skip sleepSecs)).length =
      sessions.length - skip ∧
    (sessions.length ≤ skip →
      launchIdxs (dispatch resp command sessions skip sleepSecs) = []) := by
  rw [dispatch, dispatchLoop_launchIdxs]
  constructor
  · rw [List.length_range']
    omega
  · intro hle
    have h0 : 0 + sessions.length - max skip 0 = 0 := by omega
    rw [h0]
    rfl

/-- Witness for C10: a skip_count of 5 on a single-session list dispatches
nothing. -/
theorem c10_skip_beyond_length_witness :
    launchIdxs (dispatch (fun _ _ => ⟨500, "boom"⟩) "qc" [⟨"S0", "L0"⟩] 5 60) = [] :=
  (c10_skip_beyond_length (fun _ _ => ⟨500, "boom"⟩) "qc" [⟨"S0", "L0"⟩] 5 60).2 (by decide)

/-- C9: whatever the responses (success, ambiguous success, or exhaustion
of all ten attempts), the final log line of run_command is the
started-successfully info message. -/
theorem c9_always_logs_started (resp : Nat → Response) (command : String)
    (sess : Session) (idx : Nat) :
    (run_command resp command sess idx).getLast? = some Event.startedInfo := by
  have h : run_command resp command sess idx =
      (Event.runningInfo command idx sess.ID sess.label ::
        Event.launchingDebug sess.ID ::
        ((launchLoop resp sess.ID 0 9).2 ++
          (if (launchLoop resp sess.ID 0 9).1.status = 200 ∨
              (launchLoop resp sess.ID 0 9).1.status = 501 ∨
              (launchLoop resp sess.ID 0 9).1.status = 502 then []
           else [Event.failWarning sess.ID (launchLoop resp sess.ID 0 9).1.text]))) ++
      [Event.startedInfo] := by
    simp [run_command]
  rw [h, List.getLast?_concat]

/-- C2: a launch whose first attempt returns 200 issues exactly one POST
and stops retrying; a launch whose first attempt returns 501 or 502 also
issues exactly one POST, stops retrying, logs the proxy warning (the
ambiguous-success warning carrying the response body), and records no
failure warning. -/
theorem c2_first_attempt_outcomes (resp : Nat → Response) (command : String)
    (sess : Session) (idx : Nat) :
    ((resp 0).status = 200 → countPosts (run_command resp command sess idx) = 1) ∧
    ((resp 0).status = 501 ∨ (resp 0).status = 502 →
      countPosts (run_command resp command sess idx) = 1 ∧
      Event.proxyWarning sess.ID (resp 0).text ∈ run_command resp command sess idx ∧
      (∀ s t, Event.failWarning s t ∉ run_command resp command sess idx) ∧
      (∀ s, Event.retrySleep s ∉ run_command resp command sess idx)) := by
  constructor
  · intro h200
    rw [countPosts_run_command, launchLoop_status200 resp sess.ID 0 9 h200]
    rfl
  · intro hp
    have h200 : (resp 0).status ≠ 200 := by rcases hp with h | h <;> omega
    have hl := launchLoop_proxy resp sess.ID 0 9 h200 hp
    have hcond : (resp 0).status = 200 ∨ (resp 0).status = 501 ∨ (resp 0).status = 502 :=
      Or.inr hp
    have htrace : run_command resp command sess idx =
        [Event.runningInfo command idx sess.ID sess.label, Event.launchingDebug sess.ID,
         Event.post sess.ID, Event.proxyWarning sess.ID (resp 0).text, Event.startedInfo] := by
      simp [run_command, hl, hcond]
    refine ⟨?_, ?_, ?_, ?_⟩
    · rw [countPosts_run_command, hl]
      rfl
    · rw [htrace]
      simp
    · intro s t
      rw [htrace]
      simp
    · intro s
      rw [htrace]
      simp

/-- Witness for C2: a first response of 200 and a first response of 502,
each on a concrete session. -/
theorem c2_first_attempt_outcomes_witness :
    countPosts (run_command (fun _ => ⟨200, "ok"⟩) "qc" ⟨"S0", "L0"⟩ 0) = 1 ∧
    countPosts (run_command (fun _ => ⟨502, "bad gateway"⟩) "qc" ⟨"S0", "L0"⟩ 0) = 1 ∧
    Event.proxyWarning "S0" "bad gateway" ∈
      run_command (fun _ => ⟨502, "bad gateway"⟩) "qc" ⟨"S0", "L0"⟩ 0 := by
  refine ⟨?_, ?_, ?_⟩
  · exact (c2_first_attempt_outcomes (fun _ => ⟨200, "ok"⟩) "qc" ⟨"S0", "L0"⟩ 0).1 (by decide)
  · exact ((c2_first_attempt_outcomes (fun _ => ⟨502, "bad gateway"⟩) "qc" ⟨"S0", "L0"⟩ 0).2
      (by decide)).1
  · exact ((c2_first_attempt_outcomes (fun _ => ⟨502, "bad gateway"⟩) "qc" ⟨"S0", "L0"⟩ 0).2
      (by decide)).2.1

/-- C3: a launch whose ten attempts all return a retryable status (for
example 500 throughout) issues exactly ten POSTs, one per iteration, each
followed by the fixed 10-second retry sleep, ends with the failure warning
carrying the last response body, and the dispatcher still invokes
run_command for every non-skipped session of any run, whatever the
responses. -/
theorem c3_retry_exhaustion (resp : Nat → Response) (command : String)
    (sess : Session) (idx : Nat) (hall : ∀ i, i < 10 → retryable (resp i)) :
    run_command resp command sess idx =
      Event.runningInfo command idx sess.ID sess.label ::
      Event.launchingDebug sess.ID ::
      (postSleeps sess.ID 10 ++ [Event.failWarning sess.ID (resp 9).text, Event.startedInfo]) ∧
    countPosts (run_command resp command sess idx) = 10 ∧
    (∀ (respFam : Nat → Nat → Response) (sessions : List Session) (skip s : Nat),
      (launchIdxs (dispatch respFam command sessions skip s)).length =
        sessions.length - skip) := by
  have hl0 := launchLoop_allRetry resp sess.ID 9 0 (fun j hj => by
    simpa using hall j (by omega))
  have hl : launchLoop resp sess.ID 0 9 = (resp 9, postSleeps sess.ID 10) := by
    simpa using hl0
  obtain ⟨ha, hb, hc⟩ := hall 9 (by omega)
  have htrace : run_command resp command sess idx =
      Event.runningInfo command idx sess.ID sess.label ::
      Event.launchingDebug sess.ID ::
      (postSleeps sess.ID 10 ++ [Event.failWarning sess.ID (resp 9).text, Event.startedInfo]) := by
    simp [run_command, hl, ha, hb, hc]
  refine ⟨htrace, ?_, ?_⟩
  · rw [countPosts_run_command, hl]
    exact countPosts_postSleeps sess.ID 10
  · intro respFam sessions skip s
    rw [dispatch, dispatchLoop_launchIdxs, List.length_range']
    omega

/-- Witness for C3: an oracle answering 500 forever yields ten POSTs and
the fully expanded retry trace. -/
theorem c3_retry_exhaustion_witness :
    countPosts (run_command (fun _ => ⟨500, "server error"⟩) "qc" ⟨"S0", "L0"⟩ 0) = 10 ∧
    run_command (fun _ => ⟨500, "server error"⟩) "qc" ⟨"S0", "L0"⟩ 0 =
      Event.runningInfo "qc" 0 "S0" "L0" ::
      Event.launchingDebug "S0" ::
      (postSleeps "S0" 10 ++ [Event.failWarning "S0" "server error", Event.startedInfo]) := by
  have h := c3_retry_exhaustion (fun _ => ⟨500, "server error"⟩) "qc" ⟨"S0", "L0"⟩ 0
    (fun i _ => by
      show retryable ⟨500, "server error"⟩
      decide)
  exact ⟨h.2.1, h.1⟩

/-- C5: the project-listing fetch stops at the first 200 response, issuing
exactly k+1 GET requests when the first success is attempt index k < 10
and none after it; when all ten attempts return non-200 it issues exactly
ten requests and get_project fails with the lookup error carrying the last
status code and body. -/
theorem c5_project_listing_retry (resp : Nat → Response)
    (parse : String → List ProjectRow) (ident : String) :
    (∀ k, k < 10 → (resp k).status = 200 → (∀ j, j < k → (resp j).status ≠ 200) →
      (projectFetchLoop resp 0 9).1 = k + 1) ∧
    ((∀ j, j < 10 → (resp j).status ≠ 200) →
      (projectFetchLoop resp 0 9).1 = 10 ∧
      get_project resp parse ident =
        Except.error ("Failed to download projects after 10 tries: " ++
          toString (resp 9).status ++ " " ++ (resp 9).text)) := by
  constructor
  · intro k hk h200 hfirst
    rw [projectFetchLoop_first200 resp 9 k (by omega) h200 hfirst]
  · intro hall
    have hl := projectFetchLoop_allFail resp hall
    refine ⟨by rw [hl], ?_⟩
    have h9 : (resp 9).status ≠ 200 := hall 9 (by omega)
    simp [get_project, hl, h9]

/-- Witness for C5: a listing endpoint that fails twice then succeeds
makes three requests; one that always answers 503 makes ten and produces
the lookup error with the last status and body. -/
theorem c5_project_listing_retry_witness :
    (projectFetchLoop (fun i => if i < 2 then ⟨500, "oops"⟩ else ⟨200, "body"⟩) 0 9).1 = 3 ∧
    (projectFetchLoop (fun _ => ⟨503, "down"⟩) 0 9).1 = 10 ∧
    get_project (fun _ => ⟨503, "down"⟩) (fun _ => []) "P1" =
      Except.error ("Failed to download projects after 10 tries: " ++
        toString (503 : Nat) ++ " " ++ "down") := by
  refine ⟨?_, ?_, ?_⟩
  · exact (c5_project_listing_retry (fun i => if i < 2 then ⟨500, "oops"⟩ else ⟨200, "body"⟩)
      (fun _ => []) "P1").1 2 (by omega) (by decide)
      (fun j hj => by
        have hj01 : j = 0 ∨ j = 1 := by omega
        rcases hj01 with h | h <;> subst h <;> decide)
  · exact ((c5_project_listing_retry (fun _ => ⟨503, "down"⟩) (fun _ => []) "P1").2
      (fun j _ => by decide)).1
  · exact ((c5_project_listing_retry (fun _ => ⟨503, "down"⟩) (fun _ => []) "P1").2
      (fun j _ => by decide)).2

/-- C6: project resolution returns the ID of the first listing row whose
ID or name field equals the supplied identifier, by exact case-sensitive
match with earlier rows taking precedence; and through get_project, with
the listing fetched on a 200 response, the resolved value is that same
row's ID whichever of its two fields matched. -/
theorem c6_project_resolution (rows : List ProjectRow) (ident : String) (i : Nat)
    (hi : i < rows.length)
    (hmatch : (rows.get ⟨i, hi⟩).ID = ident ∨ (rows.get ⟨i, hi⟩).name = ident)
    (hfirst : ∀ j (hj : j < i),
      ¬((rows.get ⟨j, Nat.lt_trans hj hi⟩).ID = ident ∨
        (rows.get ⟨j, Nat.lt_trans hj hi⟩).name = ident)) :
    findProject rows ident = some (rows.get ⟨i, hi⟩).ID ∧
    (∀ (resp : Nat → Response) (parse : String → List ProjectRow),
      (resp 0).status = 200 → parse (resp 0).text = rows →
      get_project resp parse ident = Except.ok (rows.get ⟨i, hi⟩).ID) := by
  have hfp := findProject_first_match ident rows i hi hmatch hfirst
  refine ⟨hfp, ?_⟩
  intro resp parse h200 hparse
  have hf := projectFetchLoop_first200 resp 9 0 (by omega) h200
    (fun j hj => absurd hj (Nat.not_lt_zero j))
  have hfp2 : findProject (parse (resp 0).text) ident = some (rows.get ⟨i, hi⟩).ID := by
    rw [hparse]
    exact hfp
  simp [get_project, hf, h200, hfp2]

/-- Witness for C6: on the listing holding the single row with ID P1 and
name Study A, resolving P1 and resolving Study A both return P1, at the
matching-loop level and through get_project. -/
theorem c6_project_resolution_witness :
    findProject [⟨"P1", "Study A"⟩] "P1" = some "P1" ∧
    findProject [⟨"P1", "Study A"⟩] "Study A" = some "P1" ∧
    get_project (fun _ => ⟨200, "csv"⟩) (fun _ => [⟨"P1", "Study A"⟩]) "P1" =
      Except.ok "P1" ∧
    get_project (fun _ => ⟨200, "csv"⟩) (fun _ => [⟨"P1", "Study A"⟩]) "Study A" =
      Except.ok "P1" := by
  have h1 := c6_project_resolution [⟨"P1", "Study A"⟩] "P1" 0 (by decide)
    (Or.inl rfl) (fun j hj => absurd hj (Nat.not_lt_zero j))
  have h2 := c6_project_resolution [⟨"P1", "Study A"⟩] "Study A" 0 (by decide)
    (Or.inr rfl) (fun j hj => absurd hj (Nat.not_lt_zero j))
  exact ⟨h1.1, h2.1, h1.2 (fun _ => ⟨200, "csv"⟩) (fun _ => [⟨"P1", "Study A"⟩]) rfl rfl,
    h2.2 (fun _ => ⟨200, "csv"⟩) (fun _ => [⟨"P1", "Study A"⟩]) rfl rfl⟩

/-- C7: the no-match branch of get_project (main.py line 103) raises with
the literal text of an f-string missing its f prefix, so the message names
neither the requested project nor the known project names: resolving
Study B against the listing holding only the row with ID P1 and name
Study A produces the verbatim brace placeholders, not a list holding
Study A. -/
theorem c7_not_found_message_literal :
    get_project (fun _ => ⟨200, "csv"⟩) (fun _ => [⟨"P1", "Study A"⟩]) "Study B" =
      Except.error "Project not found: \x7boptions.project\x7d - known project: \x7bprojects\x7d" := by
  rfl

/-- C8: with auto-confirm off, the run proceeds to dispatch exactly when
the trimmed, lowercased operator input is y or yes; any other input makes
main exit with code 1 before the loop, so no launch call is issued. -/
theorem c8_confirmation_gate (input : String) (resp : Nat → Nat → Response)
    (command : String) (sessions : List Session) (skip sleepSecs : Nat) :
    (mainRun false input resp command sessions skip sleepSecs =
        Except.ok (dispatch resp command sessions skip sleepSecs) ↔
      (pyLower (pyStrip input) = "y" ∨ pyLower (pyStrip input) = "yes")) ∧
    (¬(pyLower (pyStrip input) = "y" ∨ pyLower (pyStrip input) = "yes") →
      mainRun false input resp command sessions skip sleepSecs = Except.error 1 ∧
      mainRunLaunches (mainRun false input resp command sessions skip sleepSecs) = []) := by
  have hca : confirmAccepted input = true ↔
      (pyLower (pyStrip input) = "y" ∨ pyLower (pyStrip input) = "yes") := by
    simp [confirmAccepted]
  constructor
  · constructor
    · intro hok
      by_contra hno
      have hfalse : confirmAccepted input = false := by
        cases hcc : confirmAccepted input
        · rfl
        · exact absurd (hca.mp hcc) hno
      simp [mainRun, hfalse] at hok
    · intro hyes
      have htrue : confirmAccepted input = true := hca.mpr hyes
      simp [mainRun, htrue]
  · intro hno
    have hfalse : confirmAccepted input = false := by
      cases hcc : confirmAccepted input
      · rfl
      · exact absurd (hca.mp hcc) hno
    constructor
    · simp [mainRun, hfalse]
    · simp [mainRunLaunches, mainRun, hfalse]

/-- Witness for C8: the inputs Yes and padded y proceed; the inputs no, N
and the empty string abort with exit code 1 and no launch calls. -/
theorem c8_confirmation_gate_witness :
    mainRun false "Yes" (fun _ _ => ⟨200, "ok"⟩) "qc" [] 0 60 =
      Except.ok (dispatch (fun _ _ => ⟨200, "ok"⟩) "qc" [] 0 60) ∧
    mainRun false " y " (fun _ _ => ⟨200, "ok"⟩) "qc" [] 0 60 =
      Except.ok (dispatch (fun _ _ => ⟨200, "ok"⟩) "qc" [] 0 60) ∧
    mainRun false "no" (fun _ _ => ⟨200, "ok"⟩) "qc" [] 0 60 = Except.error 1 ∧
    mainRun false "N" (fun _ _ => ⟨200, "ok"⟩) "qc" [] 0 60 = Except.error 1 ∧
    mainRun false "" (fun _ _ => ⟨200, "ok"⟩) "qc" [] 0 60 = Except.error 1 ∧
    mainRunLaunches (mainRun false "no" (fun _ _ => ⟨200, "ok"⟩) "qc" [] 0 60) = [] := by
  refine ⟨?_, ?_, ?_, ?_, ?_, ?_⟩
  · exact (c8_confirmation_gate "Yes" (fun _ _ => ⟨200, "ok"⟩) "qc" [] 0 60).1.mpr
      (by decide)
  · exact (c8_confirmation_gate " y " (fun _ _ => ⟨200, "ok"⟩) "qc" [] 0 60).1.mpr
      (by decide)
  · exact ((c8_confirmation_gate "no" (fun _ _ => ⟨200, "ok"⟩) "qc" [] 0 60).2
      (by decide)).1
  · exact ((c8_confirmation_gate "N" (fun _ _ => ⟨200, "ok"⟩) "qc" [] 0 60).2
      (by decide)).1
  · exact ((c8_confirmation_gate "" (fun _ _ => ⟨200, "ok"⟩) "qc" [] 0 60).2
      (by decide)).1
  · exact ((c8_confirmation_gate "no" (fun _ _ => ⟨200, "ok"⟩) "qc" [] 0 60).2
      (by decide)).2

/-- C4 counterexample: in the older script xnat-autorun.py, cited by the
claim, run_command raises RuntimeError on any non-200 launch response, so
with two sessions and every launch answered 404 the exception escapes the
per-session boundary after the first POST, the second session is never
dispatched, and the batch aborts. -/
theorem c4_counterexample_autorun_abort :
    autorunLoop (fun _ => ⟨404, "err"⟩) 0 [⟨"S0", "L0"⟩, ⟨"S1", "L1"⟩] =
      ([0], some ("Failed to run command: err")) ∧
    autorunRunCommand ⟨404, "err"⟩ = Except.error "Failed to run command: err" := by
  exact ⟨rfl, rfl⟩

/-- C4 as amended: in xnat_batchrun/main.py the per-session launch loop
never raises past its boundary, so the set of dispatched sessions is the
same for every response oracle and a single session's permanent failure
never aborts the batch; in the older xnat-autorun.py, by contrast, a
non-200 launch response makes run_command raise, aborting the rest of the
batch. -/
theorem c4_amended_launch_isolation (resp : Nat → Nat → Response) (command : String)
    (sessions : List Session) (skip sleepSecs : Nat) :
    launchIdxs (dispatch resp command sessions skip sleepSecs) =
      List.range' skip (sessions.length - skip) ∧
    (∀ (resp2 : Nat → Nat → Response),
      launchIdxs (dispatch resp command sessions skip sleepSecs) =
        launchIdxs (dispatch resp2 command sessions skip sleepSecs)) ∧
    (∀ (r : Nat → Response) (i : Nat) (sess0 : Session) (rest : List Session),
      (r i).status ≠ 200 →
      autorunLoop r i (sess0 :: rest) =
        ([i], some ("Failed to run command: " ++ (r i).text))) := by
  have hgen : ∀ (resp3 : Nat → Nat → Response),
      launchIdxs (dispatch resp3 command sessions skip sleepSecs) =
        List.range' skip (sessions.length - skip) := by
    intro resp3
    rw [dispatch, dispatchLoop_launchIdxs]
    have h1 : max skip 0 = skip := by omega
    rw [h1]
    have h2 : 0 + sessions.length - skip = sessions.length - skip := by omega
    rw [h2]
  refine ⟨hgen resp, ?_, ?_⟩
  · intro resp2
    rw [hgen resp, hgen resp2]
  · intro r i sess0 rest h
    have hrc : autorunRunCommand (r i) =
        Except.error ("Failed to run command: " ++ (r i).text) := by
      simp [autorunRunCommand, h]
    simp [autorunLoop, hrc]

/-- Witness for C4 as amended: the batchrun dispatcher launches both
sessions of a two-session run under an all-404 oracle, and the older
script aborts on its first session under the same responses. -/
theorem c4_amended_launch_isolation_witness :
    launchIdxs (dispatch (fun _ _ => ⟨404, "err"⟩) "qc" [⟨"S0", "L0"⟩, ⟨"S1", "L1"⟩] 0 60) =
      [0, 1] ∧
    autorunLoop (fun _ => ⟨404, "err"⟩) 0 [⟨"S0", "L0"⟩] =
      ([0], some ("Failed to run command: " ++ "err")) := by
  have h := c4_amended_launch_isolation (fun _ _ => ⟨404, "err"⟩) "qc"
    [⟨"S0", "L0"⟩, ⟨"S1", "L1"⟩] 0 60
  constructor
  · rw [h.1]
    rfl
  · exact h.2.2 (fun _ => ⟨404, "err"⟩) 0 ⟨"S0", "L0"⟩ [] (by decide)
